import Mathlib

/-!
Shallow embedding of the Tg-cloner repository (src/main.py) and verification of
the frozen claims about its specification.

The embedding models the replication pipeline of `TelegramCloner`:

* the text transform (main.py lines 223-246),
* the content classifier for documents (lines 257-281),
* the per-message dispatch state machine `process_message` (lines 202-440),
  with the platform client abstracted as a stream of call outcomes,
* the driver loop `start_cloning` (lines 442-495) and the report printing in
  `main` (lines 497-537).

Network calls (`get_entity`, `download_media`, `send_message`) consume the next
outcome of an explicit outcome stream, so a run is a pure function of the
message list, the configuration and that stream.  Every externally visible
action (downloads, sends with their exact text, sleeps) is recorded in an event
trace.
-/

set_option maxHeartbeats 1000000

namespace TgCloner

/-! ## String helpers mirroring the Python primitives used by main.py -/

/-- Python whitespace (the ASCII characters recognised by `str.strip` and by
the regex class `\s`). -/
def isPySpace (c : Char) : Bool :=
  c == ' ' || c == '\t' || c == '\n' || c == '\r' || c == '\x0b' || c == '\x0c'

/-- `leadMatch pat s` is true when `pat` occurs at the head of `s`. -/
def leadMatch : List Char → List Char → Bool
  | [], _ => true
  | _ :: _, [] => false
  | p :: ps, c :: cs => p == c && leadMatch ps cs

/-- Scanner for Python `str.replace`: replaces non-overlapping occurrences left
to right.  The numeric argument counts characters still to be consumed by a
match already replaced. -/
def pyReplaceGo (pat rep : List Char) : List Char → Nat → List Char
  | [], _ => []
  | _ :: rest, n + 1 => pyReplaceGo pat rep rest n
  | c :: rest, 0 =>
    if leadMatch pat (c :: rest) then rep ++ pyReplaceGo pat rep rest (pat.length - 1)
    else c :: pyReplaceGo pat rep rest 0

/-- Python `s.replace(pat, rep)`.  An empty pattern inserts `rep` at every
character boundary, as in Python. -/
def pyReplace (pat rep s : String) : String :=
  if pat.data = [] then ⟨s.data.foldr (fun c acc => rep.data ++ c :: acc) rep.data⟩
  else ⟨pyReplaceGo pat.data rep.data s.data 0⟩

/-- Length of the maximal run of non-whitespace characters at the head
(the regex `\S*` at this position). -/
def nonSpaceRun : List Char → Nat
  | [] => 0
  | c :: rest => if isPySpace c then 0 else nonSpaceRun rest + 1

/-- Length matched by the regex `https?://\S+` at this position, if any. -/
def urlMatchLen (s : List Char) : Option Nat :=
  if leadMatch "https://".data s then
    let k := nonSpaceRun (s.drop 8)
    if k = 0 then none else some (8 + k)
  else if leadMatch "http://".data s then
    let k := nonSpaceRun (s.drop 7)
    if k = 0 then none else some (7 + k)
  else none

/-- Length matched by the regex `t\.me/\S+` at this position, if any. -/
def tmeMatchLen (s : List Char) : Option Nat :=
  if leadMatch "t.me/".data s then
    let k := nonSpaceRun (s.drop 5)
    if k = 0 then none else some (5 + k)
  else none

/-- `re.sub(pattern, '', s)`: delete every leftmost non-overlapping match.
The numeric argument counts characters still inside a deleted match. -/
def subDelete (matchLen : List Char → Option Nat) : List Char → Nat → List Char
  | [], _ => []
  | _ :: rest, n + 1 => subDelete matchLen rest n
  | c :: rest, 0 =>
    match matchLen (c :: rest) with
    | some n => subDelete matchLen rest (n - 1)
    | none => c :: subDelete matchLen rest 0

/-- `re.sub(r' +', ' ', s)`: collapse each run of spaces to a single space. -/
def collapseSpaces : List Char → List Char
  | [] => []
  | c :: rest =>
    if c == ' ' then
      match rest with
      | ' ' :: _ => collapseSpaces rest
      | _ => c :: collapseSpaces rest
    else c :: collapseSpaces rest

/-- Python `str.strip()`: drop whitespace from both ends. -/
def pyStrip (s : List Char) : List Char :=
  ((s.dropWhile (fun c => isPySpace c)).reverse.dropWhile (fun c => isPySpace c)).reverse

/-! ## Configuration and the text transformer (main.py lines 82-95, 223-246) -/

/-- The resolved source entity, as far as the transform cares (line 241-246:
the footer needs a `Channel` with a username). -/
inductive SourceEntity
  | channel (username : Option String) (title : String)
  | chat (title : String)
  | user
  deriving DecidableEq

/-- The configuration switches read from the environment that the dispatch
engine consults (REPLACE_TEXT, TEXT_REPLACEMENTS, REMOVE_URLS,
ADD_SOURCE_LINK, ANONYMIZE_FORWARDS). -/
structure Config where
  replace_text : Bool
  replacements : List (String × String)
  remove_urls : Bool
  add_source_link : Bool
  source : SourceEntity
  anonymize_forwards : Bool
  deriving DecidableEq

/-- Lines 228-230: each configured pair applied in order with `str.replace`. -/
def applyReplacements (reps : List (String × String)) (t : String) : String :=
  reps.foldl (fun acc p => pyReplace p.1 p.2 acc) t

/-- Lines 233-238: strip `https?://\S+` then `t\.me/\S+` tokens, collapse
runs of spaces, and strip both ends. -/
def removeUrlsStep (t : String) : String :=
  ⟨pyStrip (collapseSpaces (subDelete tmeMatchLen (subDelete urlMatchLen t.data 0) 0))⟩

/-- Lines 241-246: footer appended when ADD_SOURCE_LINK is set and the source
is a channel with a public username. -/
def sourceFooter (cfg : Config) (msgId : Nat) : Option String :=
  if cfg.add_source_link then
    match cfg.source with
    | .channel (some u) title =>
      some ("\n\n[Original post](https://t.me/" ++ u ++ "/" ++ toString msgId ++
        ") from [" ++ title ++ "](https://t.me/" ++ u ++ ")")
    | _ => none
  else none

/-- Lines 224-246: the complete text transform applied by `process_message`:
replacements first, then URL removal, then the optional source-link footer. -/
def transformText (cfg : Config) (msgId : Nat) (raw : String) : String :=
  let t1 := if cfg.replace_text && !raw.isEmpty then applyReplacements cfg.replacements raw else raw
  let t2 := if cfg.remove_urls && !t1.isEmpty then removeUrlsStep t1 else t1
  match sourceFooter cfg msgId with
  | some f => t2 ++ f
  | none => t2

/-! ## Messages, state, statistics (main.py lines 117-143 and telethon types) -/

/-- Document attributes, ordered as they appear on `document.attributes`
(telethon `DocumentAttribute*`).  `filenameAttr`/`otherAttr` stand for the
attribute kinds the classifier at lines 264-279 does not test for. -/
inductive DocAttr
  | video
  | audio (voice : Bool)
  | sticker
  | animated
  | filenameAttr
  | otherAttr
  deriving DecidableEq

/-- The media payload variants `process_message` distinguishes
(lines 253, 257, 283, 305; `MessageMediaWebPage` falls through untouched). -/
inductive MediaPayload
  | photo
  | document (attrs : List DocAttr)
  | poll (question : String) (answers : List String)
  | contact (firstName : String) (lastName : Option String) (phone : String)
  | webpage
  deriving DecidableEq

/-- Forward-origin metadata (`message.fwd_from`). -/
structure FwdInfo where
  from_id : Option Nat
  channel_post : Option Nat
  deriving DecidableEq

/-- A source message as `process_message` consumes it.  `text` models
`message.text or ""` (absent text is the empty string). -/
structure Msg where
  id : Nat
  text : String
  media : Option MediaPayload
  reply_to : Option Nat
  grouped_id : Option Nat
  fwd : Option FwdInfo
  deriving DecidableEq

/-- The statistics dictionary initialised at lines 126-143. -/
structure Stats where
  total : Nat
  cloned : Nat
  skipped : Nat
  failed : Nat
  photos : Nat
  videos : Nat
  files : Nat
  voices : Nat
  music : Nat
  gifs : Nat
  stickers : Nat
  polls : Nat
  contacts : Nat
  albums : Nat
  forwards : Nat
  text_only : Nat
  deriving DecidableEq

def initStats : Stats := ⟨0, 0, 0, 0, 0, 0, 0, 0, 0, 0, 0, 0, 0, 0, 0, 0⟩

def addCloned (s : Stats) : Stats := { s with cloned := s.cloned + 1 }
def addSkipped (s : Stats) : Stats := { s with skipped := s.skipped + 1 }
def addFailed (s : Stats) : Stats := { s with failed := s.failed + 1 }
def addPhotos (s : Stats) : Stats := { s with photos := s.photos + 1 }
def addVideos (s : Stats) : Stats := { s with videos := s.videos + 1 }
def addFiles (s : Stats) : Stats := { s with files := s.files + 1 }
def addVoices (s : Stats) : Stats := { s with voices := s.voices + 1 }
def addMusic (s : Stats) : Stats := { s with music := s.music + 1 }
def addGifs (s : Stats) : Stats := { s with gifs := s.gifs + 1 }
def addStickers (s : Stats) : Stats := { s with stickers := s.stickers + 1 }
def addPolls (s : Stats) : Stats := { s with polls := s.polls + 1 }
def addContacts (s : Stats) : Stats := { s with contacts := s.contacts + 1 }
def addForwards (s : Stats) : Stats := { s with forwards := s.forwards + 1 }
def addTextOnly (s : Stats) : Stats := { s with text_only := s.text_only + 1 }

/-- The cross-message replication state owned by one `TelegramCloner` run
(fields of `self`, lines 122-143). -/
structure CState where
  message_map : List (Nat × Nat)
  processed_messages_ids : List Nat
  seen_album_ids : List Nat
  stats : Stats
  deriving DecidableEq

def initState : CState := ⟨[], [], [], initStats⟩

/-- Dictionary lookup on the association list modelling `self.message_map`.
New bindings are consed at the front, so the first hit is the latest one. -/
def lookupMap : List (Nat × Nat) → Nat → Option Nat
  | [], _ => none
  | (k, v) :: rest, x => if x = k then some v else lookupMap rest x

def mapKeys (st : CState) : List Nat := st.message_map.map Prod.fst

/-! ## The platform client as an outcome stream -/

/-- Outcome of one platform-client call (telethon errors at lines 19-22):
success with a value (sent-message id, entity id or file handle), a generic
exception, `FloodWaitError`, `SlowModeWaitError`, or a permission error
(`ChatWriteForbiddenError` / `ChatAdminRequiredError`). -/
inductive CallOutcome
  | ok (v : Nat)
  | err
  | flood (seconds : Nat)
  | slow (seconds : Nat)
  | perm
  deriving DecidableEq

/-- Python exceptions escaping to the handlers at lines 422-440. -/
inductive PyErr
  | flood (seconds : Nat)
  | slow (seconds : Nat)
  | perm
  | other
  deriving DecidableEq

def toErr : CallOutcome → PyErr
  | .ok _ => .other
  | .err => .other
  | .flood s => .flood s
  | .slow s => .slow s
  | .perm => .perm

/-- Consume the next call outcome.  An exhausted stream behaves like a
generic failure (runs used in theorems always supply enough outcomes). -/
def takeCall : List CallOutcome → CallOutcome × List CallOutcome
  | [] => (.err, [])
  | o :: rest => (o, rest)

/-- Externally visible actions, recorded in order. -/
inductive SendKind
  | plain
  | withPoll
  | withContact
  | withForward
  deriving DecidableEq

inductive Event
  | download
  | getEntity
  | sendMsg (text : String) (hasFile : Bool) (replyTo : Option Nat) (kind : SendKind)
  | sleep (seconds : Nat)
  deriving DecidableEq

def isSendEvent : Event → Bool
  | .sendMsg _ _ _ _ => true
  | _ => false

def countSends (tr : List Event) : Nat := (tr.filter isSendEvent).length

def isSleepEvent : Event → Bool
  | .sleep _ => true
  | _ => false

def countSleeps (tr : List Event) : Nat := (tr.filter isSleepEvent).length

/-! ## The dispatch engine (main.py `process_message`, lines 202-440) -/

/-- Result of one execution of the `try` body of `process_message`:
a normal return (`None` or the new message id) or an exception escaping
to the handlers at lines 422-440. -/
inductive BodyResult
  | ret (r : Option Nat)
  | raised (e : PyErr)
  deriving DecidableEq

structure StepOut where
  result : BodyResult
  st : CState
  env : List CallOutcome
  tr : List Event
  deriving DecidableEq

/-- Lines 411-413: record the source → destination mapping and count the
clone (shared by the poll, contact, forward and generic success paths). -/
def bookkeep (m : Msg) (v : Nat) (st : CState) : CState :=
  { st with message_map := (m.id, v) :: st.message_map, stats := addCloned st.stats }

/-- Lines 262-281: classify a document by the first matching attribute;
the `for`-`else` falls through to the generic `files` counter.  The guard
`if document.attributes:` means an empty attribute list skips the whole
classification. -/
def classifyLoop : List DocAttr → Stats → Stats
  | [], s => addFiles s
  | .video :: _, s => addVideos s
  | .audio true :: _, s => addVoices s
  | .audio false :: _, s => addMusic s
  | .sticker :: _, s => addStickers s
  | .animated :: _, s => addGifs s
  | .filenameAttr :: rest, s => classifyLoop rest s
  | .otherAttr :: rest, s => classifyLoop rest s

def classifyDocument (attrs : List DocAttr) (s : Stats) : Stats :=
  if attrs.isEmpty then s else classifyLoop attrs s

/-- Outcome of the media block (lines 249-328): either an early successful
return from the poll/contact branch, or continue with (possibly flattened)
text and the downloaded file handle. -/
inductive MediaOut
  | early (v : Nat)
  | cont (text : String) (file : Option Nat)
  deriving DecidableEq

structure MediaStep where
  out : MediaOut
  st : CState
  env : List CallOutcome
  tr : List Event
  deriving DecidableEq

/-- Lines 301-303: flatten a poll into text, question first, then each
option on its own dashed line. -/
def pollFallbackText (text question : String) (answers : List String) : String :=
  answers.foldl (fun acc o => acc ++ "\n- " ++ o) (text ++ "\n\nPoll: " ++ question)

/-- Line 325: flatten a contact card into text. -/
def contactFallbackText (text firstName : String) (lastName : Option String)
    (phone : String) : String :=
  text ++ "\n\nContact: " ++ firstName ++ " " ++ lastName.getD "" ++ "\nPhone: " ++ phone

/-- Lines 249-328.  The surrounding `except Exception` at line 326 catches
every error of the download calls (including rate limits), continuing
text-only; the poll/contact sends have their own `except Exception`
fallbacks, so no exception escapes this block. -/
def mediaBlock (m : Msg) (text : String) (st : CState) (env : List CallOutcome) : MediaStep :=
  match m.media with
  | none => ⟨.cont text none, st, env, []⟩
  | some .photo =>
    let (o, env') := takeCall env
    match o with
    | .ok v => ⟨.cont text (some v), { st with stats := addPhotos st.stats }, env', [.download]⟩
    | _ => ⟨.cont text none, st, env', [.download]⟩
  | some (.document attrs) =>
    let (o, env') := takeCall env
    match o with
    | .ok v =>
      ⟨.cont text (some v), { st with stats := classifyDocument attrs st.stats }, env', [.download]⟩
    | _ => ⟨.cont text none, st, env', [.download]⟩
  | some (.poll q answers) =>
    let st := { st with stats := addPolls st.stats }
    let (o, env') := takeCall env
    let ev := Event.sendMsg (if text.isEmpty then q else text) false none .withPoll
    match o with
    | .ok v => ⟨.early v, bookkeep m v st, env', [ev]⟩
    | _ => ⟨.cont (pollFallbackText text q answers) none, st, env', [ev]⟩
  | some (.contact fn ln ph) =>
    let st := { st with stats := addContacts st.stats }
    let (o, env') := takeCall env
    let ev := Event.sendMsg text false none .withContact
    match o with
    | .ok v => ⟨.early v, bookkeep m v st, env', [ev]⟩
    | _ => ⟨.cont (contactFallbackText text fn ln ph) none, st, env', [ev]⟩
  | some .webpage => ⟨.cont text none, st, env, []⟩

/-- Lines 330-336: the reply resolver.  A total lookup: mapped id on hit,
`none` on miss or when the message is not a reply. -/
def resolveReply (st : CState) (m : Msg) : Option Nat :=
  match m.reply_to with
  | some rid => lookupMap st.message_map rid
  | none => none

/-- Lines 373-381: the outermost forward fallback send; a failure here
escapes to the top-level handlers. -/
def fwdOuterFallback (m : Msg) (text : String) (file : Option Nat) (reply : Option Nat)
    (st : CState) (env : List CallOutcome) (tr : List Event) : StepOut :=
  let (o, env') := takeCall env
  let ev := Event.sendMsg (text ++ "\n\n[Forwarded message]") file.isSome reply .plain
  match o with
  | .ok v => ⟨.ret (some v), bookkeep m v st, env', tr ++ [ev]⟩
  | e => ⟨.raised (toErr e), st, env', tr ++ [ev]⟩

/-- Lines 359-364 and 366-372: the annotated forward-fallback send; on any
failure the `except Exception` at line 373 runs the outer fallback. -/
def fwdAnnotatedSend (m : Msg) (text : String) (file : Option Nat) (reply : Option Nat)
    (st : CState) (env : List CallOutcome) (tr : List Event) : StepOut :=
  let (o, env') := takeCall env
  let ev := Event.sendMsg (text ++ "\n\n[Forwarded message]") file.isSome reply .plain
  match o with
  | .ok v => ⟨.ret (some v), bookkeep m v st, env', tr ++ [ev]⟩
  | _ => fwdOuterFallback m text file reply st env' (tr ++ [ev])

/-- Lines 338-420: the forward branch and the generic send, followed by the
success bookkeeping at lines 411-413.  In the generic branch a failure with
no file attached leaves `new_message` unbound, so line 412 raises an
`UnboundLocalError` (a generic exception) to the top-level handlers. -/
def sendPhase (cfg : Config) (m : Msg) (text : String) (file : Option Nat)
    (reply : Option Nat) (st : CState) (env : List CallOutcome) : StepOut :=
  match m.fwd, cfg.anonymize_forwards with
  | some f, false =>
    let st := { st with stats := addForwards st.stats }
    match f.from_id with
    | some _ =>
      let (o1, env1) := takeCall env
      match o1 with
      | .ok _ =>
        let (o2, env2) := takeCall env1
        let ev := Event.sendMsg text file.isSome reply .withForward
        match o2 with
        | .ok v => ⟨.ret (some v), bookkeep m v st, env2, [.getEntity, ev]⟩
        | _ => fwdAnnotatedSend m text file reply st env2 [.getEntity, ev]
      | _ => fwdAnnotatedSend m text file reply st env1 [.getEntity]
    | none => fwdAnnotatedSend m text file reply st env []
  | _, _ =>
    let (o1, env1) := takeCall env
    let ev1 := Event.sendMsg text file.isSome reply .plain
    match o1 with
    | .ok v =>
      let st := if file.isNone && m.fwd.isNone then { st with stats := addTextOnly st.stats } else st
      ⟨.ret (some v), bookkeep m v st, env1, [ev1]⟩
    | _ =>
      match file with
      | some _ =>
        let (o2, env2) := takeCall env1
        let ev2 := Event.sendMsg (text ++ "\n\n[Media could not be sent]") false reply .plain
        match o2 with
        | .ok v => ⟨.ret (some v), bookkeep m v st, env2, [ev1, ev2]⟩
        | _ => ⟨.ret none, { st with stats := addFailed st.stats }, env2, [ev1, ev2]⟩
      | none => ⟨.raised .other, st, env1, [ev1]⟩

/-- Lines 223-420: the part of the `try` body beyond the duplicate and album
guards: transform, media block, reply resolution, send phase. -/
def bodyMain (cfg : Config) (m : Msg) (st : CState) (env : List CallOutcome) : StepOut :=
  let text := transformText cfg m.id m.text
  let ms := mediaBlock m text st env
  match ms.out with
  | .early v => ⟨.ret (some v), ms.st, ms.env, ms.tr⟩
  | .cont text2 file =>
    let reply := resolveReply ms.st m
    let so := sendPhase cfg m text2 file reply ms.st ms.env
    ⟨so.result, so.st, so.env, ms.tr ++ so.tr⟩

/-- Lines 204-420: the whole `try` body of `process_message`: the duplicate
guard (the id is marked processed at entry, lines 206-209), the album guard
(lines 215-221), then `bodyMain`. -/
def body (cfg : Config) (m : Msg) (st : CState) (env : List CallOutcome) : StepOut :=
  if m.id ∈ st.processed_messages_ids then ⟨.ret none, st, env, []⟩
  else
    let st1 := { st with processed_messages_ids := m.id :: st.processed_messages_ids }
    match m.grouped_id with
    | some g =>
      if g ∈ st1.seen_album_ids then
        ⟨.ret none, { st1 with stats := addSkipped st1.stats }, env, []⟩
      else bodyMain cfg m { st1 with seen_album_ids := g :: st1.seen_album_ids } env
    | none => bodyMain cfg m st1 env

/-- Lines 202-440 with the exception handlers: a rate-limit signal sleeps for
the server-given duration and re-enters `process_message` recursively
(lines 422-425, 432-435); permission errors and any other exception count as
failed (lines 427-430, 437-440).  The recursion is modelled with fuel; the
duplicate guard makes every re-entry return immediately, so any fuel ≥ 2
computes the recursion's exact result (`processMessageFuel_stable`). -/
def processMessageFuel :
    Nat → Config → Msg → CState → List CallOutcome →
      Option Nat × CState × List CallOutcome × List Event
  | 0, _, _, st, env => (none, st, env, [])
  | n + 1, cfg, m, st, env =>
    let o := body cfg m st env
    match o.result with
    | .ret r => (r, o.st, o.env, o.tr)
    | .raised (.flood s) =>
      let (r, st2, env2, tr2) := processMessageFuel n cfg m o.st o.env
      (r, st2, env2, o.tr ++ Event.sleep s :: tr2)
    | .raised (.slow s) =>
      let (r, st2, env2, tr2) := processMessageFuel n cfg m o.st o.env
      (r, st2, env2, o.tr ++ Event.sleep s :: tr2)
    | .raised .perm => (none, { o.st with stats := addFailed o.st.stats }, o.env, o.tr)
    | .raised .other => (none, { o.st with stats := addFailed o.st.stats }, o.env, o.tr)

def process_message (cfg : Config) (m : Msg) (st : CState) (env : List CallOutcome) :
    Option Nat × CState × List CallOutcome × List Event :=
  processMessageFuel 2 cfg m st env

/-- Lines 460-475: the driver loop of `start_cloning`, processing the fetched
messages in order (delays and progress printing are unobservable here; the
per-message `except Exception` cannot fire because `process_message` converts
every exception into a return at its own handlers). -/
def runMessages (cfg : Config) :
    List Msg → CState → List CallOutcome → CState × List CallOutcome × List Event
  | [], st, env => (st, env, [])
  | m :: rest, st, env =>
    let pm := process_message cfg m st env
    let rr := runMessages cfg rest pm.2.1 pm.2.2.1
    (rr.1, rr.2.1, pm.2.2.2 ++ rr.2.2)

/-! ## Driver / report control flow (main.py lines 442-537) -/

/-- Outcome of one driver-loop iteration (lines 460-475): normal, an
`Exception` caught by the per-message handler at line 473, or a loop-aborting
`BaseException` such as a user interrupt. -/
inductive IterOutcome
  | iterOk
  | iterExc
  | iterAbort
  deriving DecidableEq

/-- How `start_cloning` terminates: returns the stats, raises a fatal
exception, or propagates an abort. -/
inductive CloneOutcome
  | retStats
  | fatal
  | aborted
  deriving DecidableEq

/-- One run of `main`, abstracted to what decides the control flow: whether
setup (connect + fetch) succeeds, whether the fetched list is empty, and the
outcome of each driver-loop iteration. -/
structure DriverRun where
  setup_ok : Bool
  msgs_empty : Bool
  iters : List IterOutcome
  deriving DecidableEq

def hasAbort : List IterOutcome → Bool
  | [] => false
  | .iterAbort :: _ => true
  | _ :: rest => hasAbort rest

/-- Lines 460-475: caught exceptions continue the loop; an abort ends it. -/
def driverLoop : List IterOutcome → CloneOutcome
  | [] => .retStats
  | .iterOk :: rest => driverLoop rest
  | .iterExc :: rest => driverLoop rest
  | .iterAbort :: _ => .aborted

/-- Lines 442-495: `start_cloning` control flow; the Bool records that the
`finally` cleanup (lines 486-495) ran, which it always does. -/
def startCloningFlow (r : DriverRun) : CloneOutcome × Bool :=
  if !r.setup_ok then (.fatal, true)
  else if r.msgs_empty then (.retStats, true)
  else (driverLoop r.iters, true)

/-- Lines 497-537: `main` prints the statistics report (lines 510-527) only
when `start_cloning` returns normally; a fatal error prints only the
critical-error line, and an interrupt prints only the interrupt notice. -/
def finalReportPrinted (r : DriverRun) : Bool :=
  match (startCloningFlow r).1 with
  | .retStats => true
  | .fatal => false
  | .aborted => false

def reachesDriverLoop (r : DriverRun) : Bool := r.setup_ok && !r.msgs_empty

/-! ## Basic lemmas -/

theorem str_data_append (s t : String) : (s ++ t).data = s.data ++ t.data := by
  cases s
  cases t
  rfl

/-- `n` occurs as a contiguous segment of `h`. -/
def SubSeg (n h : List Char) : Prop := ∃ l r, h = l ++ (n ++ r)

theorem subseg_intro (l n r : List Char) : SubSeg n (l ++ (n ++ r)) := ⟨l, r, rfl⟩

theorem subseg_ext (n h t : List Char) (hs : SubSeg n h) : SubSeg n (h ++ t) := by
  obtain ⟨l, r, rfl⟩ := hs
  exact ⟨l, r ++ t, by simp⟩

theorem subseg_tail (n h : List Char) (hs : SubSeg n h) : SubSeg n ([] ++ h) := by
  simpa using hs

/-- The flattened poll text is the initial text extended only on the right. -/
theorem pollFold_ext (l : List String) :
    ∀ init : String,
      ∃ s, (l.foldl (fun acc o => acc ++ "\n- " ++ o) init).data = init.data ++ s := by
  induction l with
  | nil => exact fun init => ⟨[], by simp [List.foldl]⟩
  | cons a rest ih =>
    intro init
    obtain ⟨s, hs⟩ := ih (init ++ "\n- " ++ a)
    refine ⟨"\n- ".data ++ a.data ++ s, ?_⟩
    simp only [List.foldl, hs, str_data_append]
    simp

/-- Every option of the poll occurs in the flattened poll text. -/
theorem pollFold_answers (l : List String) :
    ∀ init : String, ∀ a ∈ l,
      SubSeg a.data ((l.foldl (fun acc o => acc ++ "\n- " ++ o) init)).data := by
  induction l with
  | nil => intro _ a ha; cases ha
  | cons b rest ih =>
    intro init a ha
    rcases List.mem_cons.mp ha with hab | hmem
    · subst hab
      obtain ⟨s, hs⟩ := pollFold_ext rest (init ++ "\n- " ++ a)
      simp only [List.foldl, hs, str_data_append]
      exact ⟨init.data ++ "\n- ".data, s, by simp⟩
    · exact ih (init ++ "\n- " ++ b) a hmem

theorem pollFallback_question (t q : String) (ans : List String) :
    SubSeg q.data (pollFallbackText t q ans).data := by
  obtain ⟨s, hs⟩ := pollFold_ext ans (t ++ "\n\nPoll: " ++ q)
  unfold pollFallbackText
  rw [hs]
  simp only [str_data_append]
  exact ⟨t.data ++ "\n\nPoll: ".data, s, by simp⟩

theorem pollFallback_answers (t q : String) (ans : List String) :
    ∀ a ∈ ans, SubSeg a.data (pollFallbackText t q ans).data :=
  fun a ha => pollFold_answers ans (t ++ "\n\nPoll: " ++ q) a ha

theorem lookupMap_mem_keys (l : List (Nat × Nat)) (k v : Nat)
    (h : lookupMap l k = some v) : k ∈ l.map Prod.fst := by
  induction l with
  | nil => simp [lookupMap] at h
  | cons p rest ih =>
    by_cases hk : k = p.1
    · simp [hk]
    · right
      apply ih
      obtain ⟨a, b⟩ := p
      simpa [lookupMap, hk] using h

/-! ## Preservation lemmas: which state fields each phase can touch -/

theorem classifyLoop_pres (attrs : List DocAttr) (s : Stats) :
    (classifyLoop attrs s).skipped = s.skipped ∧
    (classifyLoop attrs s).albums = s.albums ∧
    (classifyLoop attrs s).cloned = s.cloned ∧
    (classifyLoop attrs s).failed = s.failed := by
  induction attrs with
  | nil => simp [classifyLoop, addFiles]
  | cons a rest ih =>
    cases a with
    | video => simp [classifyLoop, addVideos]
    | audio v => cases v <;> simp [classifyLoop, addVoices, addMusic]
    | sticker => simp [classifyLoop, addStickers]
    | animated => simp [classifyLoop, addGifs]
    | filenameAttr => simpa [classifyLoop] using ih
    | otherAttr => simpa [classifyLoop] using ih

theorem classifyDocument_pres (attrs : List DocAttr) (s : Stats) :
    (classifyDocument attrs s).skipped = s.skipped ∧
    (classifyDocument attrs s).albums = s.albums ∧
    (classifyDocument attrs s).cloned = s.cloned ∧
    (classifyDocument attrs s).failed = s.failed := by
  unfold classifyDocument
  by_cases h : attrs.isEmpty <;> simp [h, classifyLoop_pres]

/-- Fields never touched after the guards: the processed set, the seen-album
set, the `skipped` counter and the `albums` counter. -/
def GuardFieldsEq (st st' : CState) : Prop :=
  st'.processed_messages_ids = st.processed_messages_ids ∧
  st'.seen_album_ids = st.seen_album_ids ∧
  st'.stats.skipped = st.stats.skipped ∧
  st'.stats.albums = st.stats.albums

theorem guardFieldsEq_refl (st : CState) : GuardFieldsEq st st := ⟨rfl, rfl, rfl, rfl⟩

theorem guardFieldsEq_trans {a b c : CState}
    (h1 : GuardFieldsEq a b) (h2 : GuardFieldsEq b c) : GuardFieldsEq a c := by
  obtain ⟨p1, s1, k1, a1⟩ := h1
  obtain ⟨p2, s2, k2, a2⟩ := h2
  exact ⟨p2.trans p1, s2.trans s1, k2.trans k1, a2.trans a1⟩

theorem classifyDocument_skipped (attrs : List DocAttr) (s : Stats) :
    (classifyDocument attrs s).skipped = s.skipped := (classifyDocument_pres attrs s).1

theorem classifyDocument_albums (attrs : List DocAttr) (s : Stats) :
    (classifyDocument attrs s).albums = s.albums := (classifyDocument_pres attrs s).2.1

theorem classifyDocument_cloned (attrs : List DocAttr) (s : Stats) :
    (classifyDocument attrs s).cloned = s.cloned := (classifyDocument_pres attrs s).2.2.1

theorem classifyDocument_failed (attrs : List DocAttr) (s : Stats) :
    (classifyDocument attrs s).failed = s.failed := (classifyDocument_pres attrs s).2.2.2

theorem sendPhase_pres (cfg : Config) (m : Msg) (text : String) (file : Option Nat)
    (reply : Option Nat) (st : CState) (env : List CallOutcome) :
    GuardFieldsEq st (sendPhase cfg m text file reply st env).st := by
  unfold sendPhase fwdAnnotatedSend fwdOuterFallback takeCall GuardFieldsEq
  repeat' split
  all_goals refine ⟨?_, ?_, ?_, ?_⟩ <;>
    simp [bookkeep, addCloned, addForwards, addTextOnly, addFailed]

theorem mediaBlock_pres (m : Msg) (text : String) (st : CState) (env : List CallOutcome) :
    GuardFieldsEq st (mediaBlock m text st env).st := by
  unfold mediaBlock takeCall GuardFieldsEq
  repeat' split
  all_goals refine ⟨?_, ?_, ?_, ?_⟩ <;>
    simp [bookkeep, addCloned, addPhotos, addPolls, addContacts,
      classifyDocument_skipped, classifyDocument_albums]

theorem bodyMain_pres (cfg : Config) (m : Msg) (st : CState) (env : List CallOutcome) :
    GuardFieldsEq st (bodyMain cfg m st env).st := by
  unfold bodyMain
  rcases hm : (mediaBlock m (transformText cfg m.id m.text) st env).out with v | ⟨t2, f⟩
  · simpa [hm] using mediaBlock_pres m (transformText cfg m.id m.text) st env
  · simp only [hm]
    exact guardFieldsEq_trans (mediaBlock_pres ..) (sendPhase_pres ..)

/-! ## The duplicate guard and the processed-ids set -/

theorem body_guard (cfg : Config) (m : Msg) (st : CState) (env : List CallOutcome)
    (h : m.id ∈ st.processed_messages_ids) :
    body cfg m st env = ⟨.ret none, st, env, []⟩ := by
  unfold body
  rw [if_pos h]

theorem body_processed (cfg : Config) (m : Msg) (st : CState) (env : List CallOutcome) :
    (body cfg m st env).st.processed_messages_ids =
      if m.id ∈ st.processed_messages_ids then st.processed_messages_ids
      else m.id :: st.processed_messages_ids := by
  by_cases h : m.id ∈ st.processed_messages_ids
  · rw [body_guard cfg m st env h, if_pos h]
  · rw [if_neg h]
    unfold body
    rw [if_neg h]
    rcases hg : m.grouped_id with _ | g
    · simpa using (bodyMain_pres cfg m
        { st with processed_messages_ids := m.id :: st.processed_messages_ids } env).1
    · by_cases hs : g ∈ st.seen_album_ids
      · simp [hs]
      · have h2 := (bodyMain_pres cfg m { st with processed_messages_ids := m.id :: st.processed_messages_ids, seen_album_ids := g :: st.seen_album_ids } env).1
        simpa [hs] using h2

theorem body_albums (cfg : Config) (m : Msg) (st : CState) (env : List CallOutcome) :
    (body cfg m st env).st.stats.albums = st.stats.albums := by
  by_cases h : m.id ∈ st.processed_messages_ids
  · rw [body_guard cfg m st env h]
  · unfold body
    rw [if_neg h]
    rcases hg : m.grouped_id with _ | g
    · simpa using (bodyMain_pres cfg m
        { st with processed_messages_ids := m.id :: st.processed_messages_ids } env).2.2.2
    · by_cases hs : g ∈ st.seen_album_ids
      · simp [hs, addSkipped]
      · have h2 := (bodyMain_pres cfg m { st with processed_messages_ids := m.id :: st.processed_messages_ids, seen_album_ids := g :: st.seen_album_ids } env).2.2.2
        simpa [hs] using h2

theorem body_raised_mem (cfg : Config) (m : Msg) (st : CState) (env : List CallOutcome)
    (e : PyErr) (h : (body cfg m st env).result = .raised e) :
    m.id ∈ (body cfg m st env).st.processed_messages_ids := by
  by_cases hmem : m.id ∈ st.processed_messages_ids
  · rw [body_guard cfg m st env hmem] at h
    cases h
  · rw [body_processed, if_neg hmem]
    exact List.mem_cons_self ..

/-- Any fuel ≥ 2 computes the exact result of the recursive retry at
lines 425/435: a re-entry always exits through the duplicate guard. -/
theorem processMessageFuel_stable (n : Nat) (cfg : Config) (m : Msg) (st : CState)
    (env : List CallOutcome) :
    processMessageFuel (n + 2) cfg m st env = process_message cfg m st env := by
  unfold process_message
  rcases hres : (body cfg m st env).result with r | e
  · simp only [processMessageFuel, hres]
  · rcases e with s | s | _ | _ <;>
      simp only [processMessageFuel, hres] <;>
      rw [body_guard cfg m (body cfg m st env).st (body cfg m st env).env
        (body_raised_mem cfg m st env _ hres)]

theorem process_message_guard (cfg : Config) (m : Msg) (st : CState)
    (env : List CallOutcome) (h : m.id ∈ st.processed_messages_ids) :
    process_message cfg m st env = (none, st, env, []) := by
  unfold process_message processMessageFuel
  rw [body_guard cfg m st env h]

theorem process_message_processed (cfg : Config) (m : Msg) (st : CState)
    (env : List CallOutcome) :
    (process_message cfg m st env).2.1.processed_messages_ids =
      if m.id ∈ st.processed_messages_ids then st.processed_messages_ids
      else m.id :: st.processed_messages_ids := by
  unfold process_message processMessageFuel
  rcases hres : (body cfg m st env).result with r | e
  · simp only [hres]
    exact body_processed ..
  · have hg := body_guard cfg m (body cfg m st env).st (body cfg m st env).env
      (body_raised_mem cfg m st env _ hres)
    rcases e with s | s | _ | _ <;> simp only [hres, processMessageFuel, hg] <;>
      exact body_processed ..

theorem process_message_albums (cfg : Config) (m : Msg) (st : CState)
    (env : List CallOutcome) :
    (process_message cfg m st env).2.1.stats.albums = st.stats.albums := by
  unfold process_message processMessageFuel
  rcases hres : (body cfg m st env).result with r | e
  · simp only [hres]
    exact body_albums ..
  · have hg := body_guard cfg m (body cfg m st env).st (body cfg m st env).env
      (body_raised_mem cfg m st env _ hres)
    rcases e with s | s | _ | _ <;> simp only [hres, processMessageFuel, hg] <;>
      simp [addFailed, body_albums]

theorem process_message_mem (cfg : Config) (m : Msg) (st : CState)
    (env : List CallOutcome) :
    m.id ∈ (process_message cfg m st env).2.1.processed_messages_ids := by
  rw [process_message_processed]
  by_cases h : m.id ∈ st.processed_messages_ids <;> simp [h]

/-! ## Send events in the trace -/

theorem countSends_append (a b : List Event) :
    countSends (a ++ b) = countSends a + countSends b := by
  simp [countSends, List.filter_append]

theorem sendPhase_sends (cfg : Config) (m : Msg) (text : String) (file : Option Nat)
    (reply : Option Nat) (st : CState) (env : List CallOutcome) :
    1 ≤ countSends (sendPhase cfg m text file reply st env).tr := by
  unfold sendPhase fwdAnnotatedSend fwdOuterFallback takeCall
  repeat' split
  all_goals simp [countSends, isSendEvent, List.filter_append]

theorem mediaBlock_early_sends (m : Msg) (text : String) (st : CState)
    (env : List CallOutcome) (v : Nat) (h : (mediaBlock m text st env).out = .early v) :
    1 ≤ countSends (mediaBlock m text st env).tr := by
  unfold mediaBlock takeCall at h ⊢
  repeat' split
  all_goals simp_all [countSends, isSendEvent]

theorem bodyMain_sends (cfg : Config) (m : Msg) (st : CState) (env : List CallOutcome) :
    1 ≤ countSends (bodyMain cfg m st env).tr := by
  unfold bodyMain
  rcases hm : (mediaBlock m (transformText cfg m.id m.text) st env).out with v | ⟨t2, f⟩
  · simp only [hm]
    exact mediaBlock_early_sends _ _ _ _ _ hm
  · simp only [hm, countSends_append]
    have := sendPhase_sends cfg m t2 f
      (resolveReply (mediaBlock m (transformText cfg m.id m.text) st env).st m)
      (mediaBlock m (transformText cfg m.id m.text) st env).st
      (mediaBlock m (transformText cfg m.id m.text) st env).env
    omega

/-! ## How a dispatch changes the id mapping and the cloned/failed counters -/

/-- Trichotomy for the outcome of a dispatch phase relative to its entry
state: a successful send records exactly the new pair and one clone; a
terminal in-phase failure counts one failure; an escaping exception (and the
guard returns) change neither; the no-send `ret none` returns leave `failed`
either unchanged (guards) or bumped once (double failure). -/
def MapTri (m : Msg) (st : CState) (o : StepOut) : Prop :=
  (∃ v, o.result = .ret (some v) ∧ o.st.message_map = (m.id, v) :: st.message_map ∧
    o.st.stats.cloned = st.stats.cloned + 1 ∧ o.st.stats.failed = st.stats.failed) ∨
  (o.result = .ret none ∧ o.st.message_map = st.message_map ∧
    o.st.stats.cloned = st.stats.cloned ∧
    (o.st.stats.failed = st.stats.failed ∨ o.st.stats.failed = st.stats.failed + 1)) ∨
  (∃ e, o.result = .raised e ∧ o.st.message_map = st.message_map ∧
    o.st.stats.cloned = st.stats.cloned ∧ o.st.stats.failed = st.stats.failed)

theorem sendPhase_mapTri (cfg : Config) (m : Msg) (text : String) (file : Option Nat)
    (reply : Option Nat) (st : CState) (env : List CallOutcome) :
    MapTri m st (sendPhase cfg m text file reply st env) := by
  unfold MapTri sendPhase fwdAnnotatedSend fwdOuterFallback takeCall
  repeat' split
  all_goals
    first
      | (refine Or.inl ⟨_, rfl, ?_, ?_, ?_⟩ <;>
          simp [bookkeep, addCloned, addForwards, addTextOnly])
      | (refine Or.inr (Or.inl ⟨rfl, ?_, ?_, Or.inr ?_⟩) <;>
          simp [addFailed, addForwards])
      | (refine Or.inr (Or.inr ⟨_, rfl, ?_, ?_, ?_⟩) <;>
          simp [addForwards])

theorem mediaBlock_mapTri (m : Msg) (text : String) (st : CState) (env : List CallOutcome) :
    (∃ v, (mediaBlock m text st env).out = .early v ∧
      (mediaBlock m text st env).st.message_map = (m.id, v) :: st.message_map ∧
      (mediaBlock m text st env).st.stats.cloned = st.stats.cloned + 1 ∧
      (mediaBlock m text st env).st.stats.failed = st.stats.failed) ∨
    (∃ t f, (mediaBlock m text st env).out = .cont t f ∧
      (mediaBlock m text st env).st.message_map = st.message_map ∧
      (mediaBlock m text st env).st.stats.cloned = st.stats.cloned ∧
      (mediaBlock m text st env).st.stats.failed = st.stats.failed) := by
  unfold mediaBlock takeCall
  repeat' split
  all_goals
    first
      | (refine Or.inl ⟨_, rfl, ?_, ?_, ?_⟩ <;>
          simp [bookkeep, addCloned, addPolls, addContacts])
      | (refine Or.inr ⟨_, _, rfl, ?_, ?_, ?_⟩ <;>
          simp [addPhotos, addPolls, addContacts,
            classifyDocument_cloned, classifyDocument_failed])

theorem bodyMain_mapTri (cfg : Config) (m : Msg) (st : CState) (env : List CallOutcome) :
    MapTri m st (bodyMain cfg m st env) := by
  unfold bodyMain
  rcases mediaBlock_mapTri m (transformText cfg m.id m.text) st env with
    ⟨v, hout, hmap, hcl, hfl⟩ | ⟨t2, f, hout, hmap, hcl, hfl⟩
  · simp only [hout]
    exact Or.inl ⟨v, rfl, hmap, hcl, hfl⟩
  · simp only [hout]
    rcases sendPhase_mapTri cfg m t2 f
        (resolveReply (mediaBlock m (transformText cfg m.id m.text) st env).st m)
        (mediaBlock m (transformText cfg m.id m.text) st env).st
        (mediaBlock m (transformText cfg m.id m.text) st env).env with
      ⟨v, hr, hm2, hc2, hf2⟩ | ⟨hr, hm2, hc2, hf2⟩ | ⟨e, hr, hm2, hc2, hf2⟩
    · exact Or.inl ⟨v, hr, by rw [hm2, hmap], by rw [hc2, hcl], by rw [hf2, hfl]⟩
    · refine Or.inr (Or.inl ⟨hr, by rw [hm2, hmap], by rw [hc2, hcl], ?_⟩)
      rcases hf2 with h | h
      · exact Or.inl (by rw [h, hfl])
      · exact Or.inr (by rw [h, hfl])
    · exact Or.inr (Or.inr ⟨e, hr, by rw [hm2, hmap], by rw [hc2, hcl], by rw [hf2, hfl]⟩)

theorem body_mapTri (cfg : Config) (m : Msg) (st : CState) (env : List CallOutcome) :
    MapTri m st (body cfg m st env) := by
  by_cases h : m.id ∈ st.processed_messages_ids
  · rw [body_guard cfg m st env h]
    exact Or.inr (Or.inl ⟨rfl, rfl, rfl, Or.inl rfl⟩)
  · unfold body
    rw [if_neg h]
    rcases hg : m.grouped_id with _ | g
    · exact bodyMain_mapTri cfg m _ env
    · by_cases hs : g ∈ st.seen_album_ids
      · simp only [hs]
        refine Or.inr (Or.inl ⟨?_, ?_, ?_, Or.inl ?_⟩) <;> simp [hs, addSkipped]
      · simp only [hs]
        have := bodyMain_mapTri cfg m { st with processed_messages_ids := m.id :: st.processed_messages_ids, seen_album_ids := g :: st.seen_album_ids } env
        simpa [hs] using this

/-- The observable per-message effect on the mapping: a successful dispatch
returns the new destination id, extends the mapping with exactly that pair
and counts one clone; any other dispatch leaves both untouched. -/
theorem process_message_mapTri (cfg : Config) (m : Msg) (st : CState)
    (env : List CallOutcome) :
    (∃ v, (process_message cfg m st env).1 = some v ∧
      (process_message cfg m st env).2.1.message_map = (m.id, v) :: st.message_map ∧
      (process_message cfg m st env).2.1.stats.cloned = st.stats.cloned + 1) ∨
    ((process_message cfg m st env).1 = none ∧
      (process_message cfg m st env).2.1.message_map = st.message_map ∧
      (process_message cfg m st env).2.1.stats.cloned = st.stats.cloned) := by
  unfold process_message processMessageFuel
  rcases hres : (body cfg m st env).result with r | e
  · rcases body_mapTri cfg m st env with ⟨v, hr, hmap, hcl, _⟩ | ⟨hr, hmap, hcl, _⟩ |
      ⟨e, hr, _, _, _⟩
    · rw [hres] at hr
      cases hr
      simp [hres, hmap, hcl]
    · rw [hres] at hr
      cases hr
      simp [hres, hmap, hcl]
    · rw [hres] at hr
      cases hr
  · have hmem := body_raised_mem cfg m st env _ hres
    have hg := body_guard cfg m (body cfg m st env).st (body cfg m st env).env hmem
    have hbase : (body cfg m st env).st.message_map = st.message_map ∧
        (body cfg m st env).st.stats.cloned = st.stats.cloned := by
      rcases body_mapTri cfg m st env with ⟨v, hr, _, _, _⟩ | ⟨hr, hmap, hcl, _⟩ |
        ⟨e2, hr, hmap, hcl, _⟩
      · rw [hres] at hr
        cases hr
      · rw [hres] at hr
        cases hr
      · exact ⟨hmap, hcl⟩
    rcases e with s | s | _ | _ <;> simp only [hres, processMessageFuel, hg] <;>
      simp [addFailed, hbase.1, hbase.2]

/-! ## Well-formedness of the id mapping across a run (claim C9 support) -/

def WfMapState (st : CState) : Prop :=
  (∀ k, k ∈ mapKeys st → k ∈ st.processed_messages_ids) ∧
  (mapKeys st).Nodup ∧ (mapKeys st).length = st.stats.cloned

theorem wf_initState : WfMapState initState := by
  refine ⟨?_, ?_, ?_⟩ <;> simp [mapKeys, initState, initStats]

theorem process_message_wf (cfg : Config) (m : Msg) (st : CState)
    (env : List CallOutcome) (h : WfMapState st) :
    WfMapState (process_message cfg m st env).2.1 ∧
    (∀ k v, lookupMap st.message_map k = some v →
      lookupMap (process_message cfg m st env).2.1.message_map k = some v) := by
  obtain ⟨hsub, hnd, hlen⟩ := h
  have hproc := process_message_processed cfg m st env
  rcases process_message_mapTri cfg m st env with ⟨v, hv, hmap, hcl⟩ | ⟨_, hmap, hcl⟩
  · have hfresh : m.id ∉ st.processed_messages_ids := by
      intro hmem
      rw [process_message_guard cfg m st env hmem] at hv
      cases hv
    have hkeys : mapKeys (process_message cfg m st env).2.1 = m.id :: mapKeys st := by
      simp [mapKeys, hmap]
    have hknotin : m.id ∉ mapKeys st := fun hk => hfresh (hsub _ hk)
    rw [if_neg hfresh] at hproc
    refine ⟨⟨?_, ?_, ?_⟩, ?_⟩
    · intro k hk
      rw [hkeys] at hk
      rw [hproc]
      rcases List.mem_cons.mp hk with hk1 | hk2
      · exact hk1 ▸ List.mem_cons_self ..
      · exact List.mem_cons_of_mem _ (hsub _ hk2)
    · rw [hkeys]
      exact List.Nodup.cons hknotin hnd
    · rw [hkeys, hcl]
      simpa using hlen
    · intro k v' hkv
      have hkmem : k ∈ mapKeys st := lookupMap_mem_keys _ _ _ hkv
      have hkne : k ≠ m.id := fun he => hknotin (he ▸ hkmem)
      rw [hmap]
      simpa [lookupMap, hkne] using hkv
  · refine ⟨⟨?_, ?_, ?_⟩, ?_⟩
    · intro k hk
      have hk2 : k ∈ st.processed_messages_ids := hsub k (by simpa [mapKeys, hmap] using hk)
      rw [hproc]
      by_cases hmem : m.id ∈ st.processed_messages_ids <;> simp [hmem, hk2]
    · simpa [mapKeys, hmap] using hnd
    · rw [hcl]
      simpa [mapKeys, hmap] using hlen
    · intro k v hv
      rw [hmap]
      exact hv

theorem runMessages_wf (cfg : Config) (msgs : List Msg) (st : CState)
    (env : List CallOutcome) (h : WfMapState st) :
    WfMapState (runMessages cfg msgs st env).1 ∧
    (∀ k v, lookupMap st.message_map k = some v →
      lookupMap ((runMessages cfg msgs st env).1).message_map k = some v) := by
  induction msgs generalizing st env with
  | nil => exact ⟨h, fun k v hv => hv⟩
  | cons m rest ih =>
    have h1 := process_message_wf cfg m st env h
    have h2 := ih (process_message cfg m st env).2.1 (process_message cfg m st env).2.2.1 h1.1
    simp only [runMessages]
    exact ⟨h2.1, fun k v hv => h2.2 _ _ (h1.2 _ _ hv)⟩

theorem runMessages_append (cfg : Config) (pre suf : List Msg) (st : CState)
    (env : List CallOutcome) :
    (runMessages cfg (pre ++ suf) st env).1 =
      (runMessages cfg suf (runMessages cfg pre st env).1
        (runMessages cfg pre st env).2.1).1 ∧
    (runMessages cfg (pre ++ suf) st env).2.1 =
      (runMessages cfg suf (runMessages cfg pre st env).1
        (runMessages cfg pre st env).2.1).2.1 := by
  induction pre generalizing st env with
  | nil => exact ⟨rfl, rfl⟩
  | cons m rest ih =>
    simp only [List.cons_append, runMessages]
    exact ih (process_message cfg m st env).2.1 (process_message cfg m st env).2.2.1

theorem runMessages_albums (cfg : Config) (msgs : List Msg) (st : CState)
    (env : List CallOutcome) :
    (runMessages cfg msgs st env).1.stats.albums = st.stats.albums := by
  induction msgs generalizing st env with
  | nil => rfl
  | cons m rest ih =>
    simp only [runMessages]
    rw [ih, process_message_albums]

/-! ## Evaluation lemmas for specific dispatch scenarios -/

theorem process_message_of_ret (cfg : Config) (m : Msg) (st : CState)
    (env : List CallOutcome) (r : Option Nat)
    (h : (body cfg m st env).result = .ret r) :
    process_message cfg m st env =
      (r, (body cfg m st env).st, (body cfg m st env).env, (body cfg m st env).tr) := by
  unfold process_message processMessageFuel
  simp only [h]

/-- A rate-limit signal escaping the body: sleep, then the retry exits
through the duplicate guard, adding nothing but the sleep to the trace. -/
theorem process_message_of_rate (cfg : Config) (m : Msg) (st : CState)
    (env : List CallOutcome) (s : Nat)
    (h : (body cfg m st env).result = .raised (.flood s) ∨
      (body cfg m st env).result = .raised (.slow s)) :
    process_message cfg m st env =
      (none, (body cfg m st env).st, (body cfg m st env).env,
        (body cfg m st env).tr ++ [Event.sleep s]) := by
  have hmem : m.id ∈ (body cfg m st env).st.processed_messages_ids := by
    rcases h with h | h <;> exact body_raised_mem cfg m st env _ h
  have hguard := body_guard cfg m (body cfg m st env).st (body cfg m st env).env hmem
  have h1 : processMessageFuel 1 cfg m (body cfg m st env).st (body cfg m st env).env =
      (none, (body cfg m st env).st, (body cfg m st env).env, []) := by
    unfold processMessageFuel
    rw [hguard]
  unfold process_message processMessageFuel
  rcases h with h | h <;> simp only [h, h1]

/-- A permission error or any other exception escaping the body: one failure
is counted and the dispatch returns `None`. -/
theorem process_message_of_fail (cfg : Config) (m : Msg) (st : CState)
    (env : List CallOutcome)
    (h : (body cfg m st env).result = .raised .perm ∨
      (body cfg m st env).result = .raised .other) :
    process_message cfg m st env =
      (none, { (body cfg m st env).st with stats := addFailed (body cfg m st env).st.stats },
        (body cfg m st env).env, (body cfg m st env).tr) := by
  unfold process_message processMessageFuel
  rcases h with h | h <;> simp only [h]

/-- Lines 215-218: a message of an already-seen album is counted skipped,
marked processed, and nothing else happens. -/
theorem process_message_album_skip (cfg : Config) (m : Msg) (st : CState)
    (env : List CallOutcome) (g : Nat)
    (hid : m.id ∉ st.processed_messages_ids) (hg : m.grouped_id = some g)
    (hseen : g ∈ st.seen_album_ids) :
    process_message cfg m st env =
      (none, { st with processed_messages_ids := m.id :: st.processed_messages_ids, stats := addSkipped st.stats }, env, []) := by
  have hbody : body cfg m st env =
      ⟨.ret none, { st with processed_messages_ids := m.id :: st.processed_messages_ids, stats := addSkipped st.stats }, env, []⟩ := by
    unfold body
    rw [if_neg hid, hg]
    simp [hseen]
  rw [process_message_of_ret cfg m st env none (by rw [hbody]), hbody]

/-- Lines 220-221: the first message of an album records the album id before
any send is attempted; its dispatch does not touch the skipped counter and
performs at least one send attempt. -/
theorem process_message_album_first (cfg : Config) (m : Msg) (st : CState)
    (env : List CallOutcome) (g : Nat)
    (hid : m.id ∉ st.processed_messages_ids) (hg : m.grouped_id = some g)
    (hseen : g ∉ st.seen_album_ids) :
    (process_message cfg m st env).2.1.seen_album_ids = g :: st.seen_album_ids ∧
    (process_message cfg m st env).2.1.stats.skipped = st.stats.skipped ∧
    1 ≤ countSends (process_message cfg m st env).2.2.2 := by
  have hbody : body cfg m st env = bodyMain cfg m { st with processed_messages_ids := m.id :: st.processed_messages_ids, seen_album_ids := g :: st.seen_album_ids } env := by
    unfold body
    rw [if_neg hid, hg]
    simp [hseen]
  have hpres := bodyMain_pres cfg m { st with processed_messages_ids := m.id :: st.processed_messages_ids, seen_album_ids := g :: st.seen_album_ids } env
  have hsee : (body cfg m st env).st.seen_album_ids = g :: st.seen_album_ids := by
    rw [hbody]
    exact hpres.2.1
  have hskp : (body cfg m st env).st.stats.skipped = st.stats.skipped := by
    rw [hbody]
    exact hpres.2.2.1
  have hsnd : 1 ≤ countSends (body cfg m st env).tr := by
    rw [hbody]
    exact bodyMain_sends ..
  rcases hres : (body cfg m st env).result with r | e
  · rw [process_message_of_ret cfg m st env r hres]
    exact ⟨hsee, hskp, hsnd⟩
  · rcases e with s | s | _ | _
    · rw [process_message_of_rate cfg m st env s (Or.inl hres)]
      refine ⟨hsee, hskp, ?_⟩
      rw [countSends_append]
      omega
    · rw [process_message_of_rate cfg m st env s (Or.inr hres)]
      refine ⟨hsee, hskp, ?_⟩
      rw [countSends_append]
      omega
    · rw [process_message_of_fail cfg m st env (Or.inl hres)]
      exact ⟨hsee, by simpa [addFailed] using hskp, hsnd⟩
    · rw [process_message_of_fail cfg m st env (Or.inr hres)]
      exact ⟨hsee, by simpa [addFailed] using hskp, hsnd⟩

/-- Skipping a whole suffix of album messages: with the album id already
seen, every message of the suffix is counted skipped, no event is emitted
and the outcome stream is not consumed. -/
theorem runMessages_album_rest (cfg : Config) (a : Nat) (msgs : List Msg)
    (st : CState) (env : List CallOutcome)
    (hall : ∀ x ∈ msgs, x.grouped_id = some a)
    (hseen : a ∈ st.seen_album_ids)
    (hids : ∀ x ∈ msgs, x.id ∉ st.processed_messages_ids)
    (hnd : msgs.Pairwise (fun x y => x.id ≠ y.id)) :
    (runMessages cfg msgs st env).1.stats.skipped = st.stats.skipped + msgs.length ∧
    (runMessages cfg msgs st env).2.2 = [] ∧
    (runMessages cfg msgs st env).2.1 = env := by
  induction msgs generalizing st with
  | nil => simp [runMessages]
  | cons m rest ih =>
    have hstep := process_message_album_skip cfg m st env a
      (hids m (List.mem_cons_self ..)) (hall m (List.mem_cons_self ..)) hseen
    have hrest := ih { st with processed_messages_ids := m.id :: st.processed_messages_ids, stats := addSkipped st.stats }
      (fun x hx => hall x (List.mem_cons_of_mem _ hx))
      (by simpa using hseen)
      (by
        intro x hx
        simp only [List.mem_cons]
        rintro (hxm | hxmem)
        · exact (List.rel_of_pairwise_cons hnd hx) hxm.symm
        · exact hids x (List.mem_cons_of_mem _ hx) hxmem)
      (List.Pairwise.of_cons hnd)
    simp only [runMessages, hstep]
    refine ⟨?_, ?_, ?_⟩
    · rw [hrest.1]
      simp [addSkipped]
      omega
    · simp [hrest.2.1]
    · exact hrest.2.2

theorem resolveReply_congr (st st' : CState) (m : Msg)
    (h : st'.message_map = st.message_map) : resolveReply st' m = resolveReply st m := by
  unfold resolveReply
  rw [h]

/-- Lines 386-395 on a plain text-only message: the generic send succeeds,
counts a text-only clone and carries the resolved reply target. -/
theorem bodyMain_generic_eval (cfg : Config) (m : Msg) (st : CState) (v : Nat)
    (rest : List CallOutcome) (hmedia : m.media = none) (hfwd : m.fwd = none) :
    bodyMain cfg m st (.ok v :: rest) =
      ⟨.ret (some v), bookkeep m v { st with stats := addTextOnly st.stats }, rest,
        [Event.sendMsg (transformText cfg m.id m.text) false (resolveReply st m) .plain]⟩ := by
  unfold bodyMain mediaBlock sendPhase takeCall
  simp [hmedia, hfwd]

/-- Lines 283-303 then 386-392: a failed native poll send flattens the poll
into text and the generic send of that text succeeds. -/
theorem bodyMain_poll_eval (cfg : Config) (m : Msg) (st : CState) (q : String)
    (ans : List String) (o : CallOutcome) (v : Nat) (rest : List CallOutcome)
    (hmedia : m.media = some (.poll q ans)) (hfwd : m.fwd = none)
    (ho : o = CallOutcome.err ∨ o = CallOutcome.perm) :
    bodyMain cfg m st (o :: .ok v :: rest) =
      ⟨.ret (some v), bookkeep m v { st with stats := addTextOnly (addPolls st.stats) }, rest,
        [Event.sendMsg (if (transformText cfg m.id m.text).isEmpty then q
            else transformText cfg m.id m.text) false none .withPoll,
          Event.sendMsg (pollFallbackText (transformText cfg m.id m.text) q ans) false
            (resolveReply st m) .plain]⟩ := by
  unfold bodyMain mediaBlock sendPhase takeCall
  rcases ho with ho | ho <;> subst ho <;> simp [hmedia, hfwd] <;>
    exact resolveReply_congr st _ m rfl

/-! ## Driver-loop report support (claim C2) -/

theorem driverLoop_eq (l : List IterOutcome) :
    driverLoop l = if hasAbort l then .aborted else .retStats := by
  induction l with
  | nil => rfl
  | cons a rest ih => cases a <;> simp [driverLoop, hasAbort, ih]

/-! ## Spec-side classification rule (claim C7) -/

/-- The closed set of document content kinds of spec §4.1. -/
inductive DocKind
  | video
  | voice
  | music
  | sticker
  | animated
  | file
  deriving DecidableEq

/-- Stated from the spec's words (§4.1): take the first matching attribute
kind; if no attribute matches, classify as generic file. -/
def specFirstKind : List DocAttr → DocKind
  | [] => .file
  | .video :: _ => .video
  | .audio true :: _ => .voice
  | .audio false :: _ => .music
  | .sticker :: _ => .sticker
  | .animated :: _ => .animated
  | .filenameAttr :: rest => specFirstKind rest
  | .otherAttr :: rest => specFirstKind rest

/-- Spec-side classification including the amendment: an empty attribute
list yields no classification at all. -/
def specDocKind (attrs : List DocAttr) : Option DocKind :=
  if attrs.isEmpty then none else some (specFirstKind attrs)

/-- The counter corresponding to a document kind. -/
def bumpKind : DocKind → Stats → Stats
  | .video => addVideos
  | .voice => addVoices
  | .music => addMusic
  | .sticker => addStickers
  | .animated => addGifs
  | .file => addFiles

/-- Total of the six document content-kind counters. -/
def sixKindTotal (s : Stats) : Nat :=
  s.videos + s.voices + s.music + s.stickers + s.gifs + s.files

theorem classifyLoop_eq_bump (attrs : List DocAttr) (s : Stats) :
    classifyLoop attrs s = bumpKind (specFirstKind attrs) s := by
  induction attrs with
  | nil => rfl
  | cons a rest ih =>
    cases a with
    | video => rfl
    | audio voi => cases voi <;> rfl
    | sticker => rfl
    | animated => rfl
    | filenameAttr => simpa [classifyLoop, specFirstKind] using ih
    | otherAttr => simpa [classifyLoop, specFirstKind] using ih

theorem bumpKind_six (k : DocKind) (s : Stats) :
    sixKindTotal (bumpKind k s) = sixKindTotal s + 1 := by
  cases k <;>
    simp [bumpKind, sixKindTotal, addVideos, addVoices, addMusic, addStickers,
      addGifs, addFiles] <;>
    omega

/-! ## Concrete configurations, messages and runs used by the claims -/

/-- Reference configuration: every transform toggle off. -/
def cfgPlain : Config := ⟨false, [], false, false, .user, false⟩

/-- The configuration of the spec's transform example: URL removal on and
the single replacement OLD → NEW. -/
def cfgTransformA : Config := ⟨true, [("OLD", "NEW")], true, false, .user, false⟩

/-- A configuration whose replacement introduces a URL, separating the
replacements-first order from the URL-removal-first order. -/
def cfgTransformB : Config := ⟨true, [("OLD", "http://x")], true, false, .user, false⟩

def msgPlainText : Msg := ⟨1, "hi", none, none, none, none⟩

def msgForwarded : Msg := ⟨2, "hi", none, none, none, some ⟨some 77, none⟩⟩

def msgEmptyAttrsDoc : Msg := ⟨3, "d", some (.document []), none, none, none⟩

def msgPollW : Msg := ⟨4, "", some (.poll "Q?" ["a1", "a2"]), none, none, none⟩

def msgReplyW : Msg := ⟨9, "r", none, some 5, none, none⟩

/-- A state in which source id 5 was already cloned to destination id 50. -/
def stMapped : CState := ⟨[(5, 50)], [], [], initStats⟩

def msgAlbumA : Msg := ⟨1, "a", none, none, some 5, none⟩

def msgAlbumB : Msg := ⟨2, "b", none, none, some 5, none⟩

def msgAlbumC : Msg := ⟨3, "c", none, none, some 5, none⟩

def envAlbum : List CallOutcome := [.ok 10, .ok 11, .ok 12]

/-- A run that reaches the driver loop and is aborted mid-loop. -/
def runAborted : DriverRun := ⟨true, false, [.iterOk, .iterAbort]⟩

/-! ## The claims -/

/-- Claim C1 (code bug): the spec requires that a send raising a rate-limit
signal suspends for the given wait, re-enters the dispatch, and a successful
retry yields exactly one clone.  The code does neither.  First run: a plain
text message whose generic send raises FloodWait(3) with a success available
next — the `except Exception` at line 396 swallows the signal, no suspension
happens (no sleep event) and the message is counted failed.  Second run: a
forward-path message where the rate limit does reach the retry handler at
line 422 — the engine sleeps, but the retry exits through the duplicate
guard (the id was marked processed at entry, line 209), so the message is
silently dropped: not cloned, not failed. -/
theorem C1_rate_limit_retry_code_bug :
    ((process_message cfgPlain msgPlainText initState [.flood 3, .ok 100]).1 = none ∧
      (process_message cfgPlain msgPlainText initState [.flood 3, .ok 100]).2.1.stats.cloned = 0 ∧
      (process_message cfgPlain msgPlainText initState [.flood 3, .ok 100]).2.1.stats.failed = 1 ∧
      countSleeps (process_message cfgPlain msgPlainText initState [.flood 3, .ok 100]).2.2.2 = 0) ∧
    ((process_message cfgPlain msgForwarded initState [.err, .err, .flood 3, .ok 100]).1 = none ∧
      (process_message cfgPlain msgForwarded initState [.err, .err, .flood 3, .ok 100]).2.1.stats.cloned = 0 ∧
      (process_message cfgPlain msgForwarded initState [.err, .err, .flood 3, .ok 100]).2.1.stats.failed = 0 ∧
      Event.sleep 3 ∈ (process_message cfgPlain msgForwarded initState [.err, .err, .flood 3, .ok 100]).2.2.2) := by
  decide

/-- Claim C2 counterexample: a run that reaches the driver loop and is
aborted mid-loop runs the cleanup but does not print the final statistics
report, contradicting the claim that the report is always printed once the
driver loop is reached. -/
theorem C2_report_counterexample :
    reachesDriverLoop runAborted = true ∧ (startCloningFlow runAborted).2 = true ∧
    finalReportPrinted runAborted = false := by
  decide

/-- Claim C2 (amended): the cleanup always runs, and the final statistics
report is printed exactly when `start_cloning` returns normally: setup
succeeded and no abort ended the driver loop (per-message exceptions are
caught inside the loop and do not prevent the report). -/
theorem C2_report_amended (r : DriverRun) :
    (startCloningFlow r).2 = true ∧
    finalReportPrinted r = (r.setup_ok && (r.msgs_empty || !hasAbort r.iters)) := by
  obtain ⟨so, me, it⟩ := r
  refine ⟨?_, ?_⟩
  · cases so <;> cases me <;> simp [startCloningFlow]
  · cases so <;> cases me <;> cases h : hasAbort it <;>
      simp [startCloningFlow, finalReportPrinted, driverLoop_eq, h]

/-- Claim C3: a poll message (generic path) whose native poll send fails
with a non-rate-limit error falls back to a plain-text send whose text
contains the poll question and the text of each option; the successful
fallback extends the mapping, increments `cloned` and leaves `failed`
untouched. -/
theorem C3_poll_fallback (cfg : Config) (m : Msg) (st : CState) (q : String)
    (ans : List String) (o : CallOutcome) (v : Nat) (rest : List CallOutcome)
    (hmedia : m.media = some (.poll q ans)) (hfwd : m.fwd = none)
    (hid : m.id ∉ st.processed_messages_ids)
    (halb : ∀ g, m.grouped_id = some g → g ∉ st.seen_album_ids)
    (ho : o = CallOutcome.err ∨ o = CallOutcome.perm) :
    (process_message cfg m st (o :: .ok v :: rest)).1 = some v ∧
    (process_message cfg m st (o :: .ok v :: rest)).2.1.stats.cloned = st.stats.cloned + 1 ∧
    (process_message cfg m st (o :: .ok v :: rest)).2.1.stats.failed = st.stats.failed ∧
    (process_message cfg m st (o :: .ok v :: rest)).2.1.message_map =
      (m.id, v) :: st.message_map ∧
    (process_message cfg m st (o :: .ok v :: rest)).2.2.2 =
      [Event.sendMsg (if (transformText cfg m.id m.text).isEmpty then q
          else transformText cfg m.id m.text) false none .withPoll,
        Event.sendMsg (pollFallbackText (transformText cfg m.id m.text) q ans) false
          (resolveReply st m) .plain] ∧
    SubSeg q.data (pollFallbackText (transformText cfg m.id m.text) q ans).data ∧
    (∀ a ∈ ans, SubSeg a.data (pollFallbackText (transformText cfg m.id m.text) q ans).data) := by
  have main : ∀ st1 : CState, st1.message_map = st.message_map → st1.stats = st.stats →
      body cfg m st (o :: .ok v :: rest) = bodyMain cfg m st1 (o :: .ok v :: rest) →
      (process_message cfg m st (o :: .ok v :: rest)).1 = some v ∧
      (process_message cfg m st (o :: .ok v :: rest)).2.1.stats.cloned = st.stats.cloned + 1 ∧
      (process_message cfg m st (o :: .ok v :: rest)).2.1.stats.failed = st.stats.failed ∧
      (process_message cfg m st (o :: .ok v :: rest)).2.1.message_map =
        (m.id, v) :: st.message_map ∧
      (process_message cfg m st (o :: .ok v :: rest)).2.2.2 =
        [Event.sendMsg (if (transformText cfg m.id m.text).isEmpty then q
            else transformText cfg m.id m.text) false none .withPoll,
          Event.sendMsg (pollFallbackText (transformText cfg m.id m.text) q ans) false
            (resolveReply st m) .plain] := by
    intro st1 hmap hstats hbody
    have heval := bodyMain_poll_eval cfg m st1 q ans o v rest hmedia hfwd ho
    have hres : (body cfg m st (o :: .ok v :: rest)).result = .ret (some v) := by
      rw [hbody, heval]
    have hP := process_message_of_ret cfg m st (o :: .ok v :: rest) (some v) hres
    rw [hP, hbody, heval]
    refine ⟨rfl, ?_, ?_, ?_, ?_⟩
    · simp [bookkeep, addCloned, addTextOnly, addPolls, hstats]
    · simp [bookkeep, addCloned, addTextOnly, addPolls, hstats]
    · simp [bookkeep, hmap]
    · rw [resolveReply_congr st st1 m hmap]
  have hcore : (process_message cfg m st (o :: .ok v :: rest)).1 = some v ∧
      (process_message cfg m st (o :: .ok v :: rest)).2.1.stats.cloned = st.stats.cloned + 1 ∧
      (process_message cfg m st (o :: .ok v :: rest)).2.1.stats.failed = st.stats.failed ∧
      (process_message cfg m st (o :: .ok v :: rest)).2.1.message_map =
        (m.id, v) :: st.message_map ∧
      (process_message cfg m st (o :: .ok v :: rest)).2.2.2 =
        [Event.sendMsg (if (transformText cfg m.id m.text).isEmpty then q
            else transformText cfg m.id m.text) false none .withPoll,
          Event.sendMsg (pollFallbackText (transformText cfg m.id m.text) q ans) false
            (resolveReply st m) .plain] := by
    rcases hg : m.grouped_id with _ | g
    · exact main { st with processed_messages_ids := m.id :: st.processed_messages_ids } rfl rfl
        (by unfold body; rw [if_neg hid, hg])
    · exact main { st with processed_messages_ids := m.id :: st.processed_messages_ids, seen_album_ids := g :: st.seen_album_ids } rfl rfl
        (by unfold body; rw [if_neg hid, hg]; simp [halb g hg])
  exact ⟨hcore.1, hcore.2.1, hcore.2.2.1, hcore.2.2.2.1, hcore.2.2.2.2,
    pollFallback_question _ _ _, pollFallback_answers _ _ _⟩

/-- Witness for C3 at a concrete poll message: the failed native poll send
is recovered by the plain-text fallback and counted as cloned. -/
theorem C3_poll_fallback_witness :
    (msgPollW.id ∉ initState.processed_messages_ids) ∧
    (process_message cfgPlain msgPollW initState [.err, .ok 11]).1 = some 11 ∧
    (process_message cfgPlain msgPollW initState [.err, .ok 11]).2.1.stats.cloned =
      initState.stats.cloned + 1 ∧
    (process_message cfgPlain msgPollW initState [.err, .ok 11]).2.1.stats.failed =
      initState.stats.failed := by
  have h := C3_poll_fallback cfgPlain msgPollW initState "Q?" ["a1", "a2"]
    CallOutcome.err 11 [] rfl rfl (by decide)
    (by intro g hg; simp [msgPollW] at hg) (Or.inl rfl)
  exact ⟨by decide, h.1, h.2.1, h.2.2.1⟩

/-- Claim C4: for a message with a reply target, the resolver is the total
lookup in the id mapping (mapped id on hit, none on miss), and the message
is sent either way, as a reply on hit and as a top-level message on miss,
never dropped. -/
theorem C4_reply_resolution (cfg : Config) (m : Msg) (st : CState) (rid v : Nat)
    (rest : List CallOutcome)
    (hmedia : m.media = none) (hfwd : m.fwd = none)
    (hid : m.id ∉ st.processed_messages_ids)
    (halb : ∀ g, m.grouped_id = some g → g ∉ st.seen_album_ids)
    (hreply : m.reply_to = some rid) :
    resolveReply st m = lookupMap st.message_map rid ∧
    (process_message cfg m st (.ok v :: rest)).1 = some v ∧
    (process_message cfg m st (.ok v :: rest)).2.1.message_map =
      (m.id, v) :: st.message_map ∧
    (process_message cfg m st (.ok v :: rest)).2.1.stats.cloned = st.stats.cloned + 1 ∧
    (process_message cfg m st (.ok v :: rest)).2.1.stats.failed = st.stats.failed ∧
    (process_message cfg m st (.ok v :: rest)).2.2.2 =
      [Event.sendMsg (transformText cfg m.id m.text) false
        (lookupMap st.message_map rid) .plain] := by
  have hrr : resolveReply st m = lookupMap st.message_map rid := by
    unfold resolveReply
    rw [hreply]
  have main : ∀ st1 : CState, st1.message_map = st.message_map → st1.stats = st.stats →
      body cfg m st (.ok v :: rest) = bodyMain cfg m st1 (.ok v :: rest) →
      (process_message cfg m st (.ok v :: rest)).1 = some v ∧
      (process_message cfg m st (.ok v :: rest)).2.1.message_map =
        (m.id, v) :: st.message_map ∧
      (process_message cfg m st (.ok v :: rest)).2.1.stats.cloned = st.stats.cloned + 1 ∧
      (process_message cfg m st (.ok v :: rest)).2.1.stats.failed = st.stats.failed ∧
      (process_message cfg m st (.ok v :: rest)).2.2.2 =
        [Event.sendMsg (transformText cfg m.id m.text) false
          (lookupMap st.message_map rid) .plain] := by
    intro st1 hmap hstats hbody
    have heval := bodyMain_generic_eval cfg m st1 v rest hmedia hfwd
    have hres : (body cfg m st (.ok v :: rest)).result = .ret (some v) := by
      rw [hbody, heval]
    have hP := process_message_of_ret cfg m st (.ok v :: rest) (some v) hres
    rw [hP, hbody, heval]
    refine ⟨rfl, ?_, ?_, ?_, ?_⟩
    · simp [bookkeep, hmap]
    · simp [bookkeep, addCloned, addTextOnly, hstats]
    · simp [bookkeep, addCloned, addTextOnly, hstats]
    · rw [resolveReply_congr st st1 m hmap, hrr]
  refine ⟨hrr, ?_⟩
  rcases hg : m.grouped_id with _ | g
  · exact main { st with processed_messages_ids := m.id :: st.processed_messages_ids } rfl rfl
      (by unfold body; rw [if_neg hid, hg])
  · exact main { st with processed_messages_ids := m.id :: st.processed_messages_ids, seen_album_ids := g :: st.seen_album_ids } rfl rfl
      (by unfold body; rw [if_neg hid, hg]; simp [halb g hg])

/-- Witness for C4 at a concrete message replying to the already-cloned
source id 5: the send carries the mapped destination id 50. -/
theorem C4_reply_resolution_witness :
    msgReplyW.reply_to = some 5 ∧
    resolveReply stMapped msgReplyW = lookupMap stMapped.message_map 5 ∧
    (process_message cfgPlain msgReplyW stMapped [.ok 60]).1 = some 60 ∧
    (process_message cfgPlain msgReplyW stMapped [.ok 60]).2.2.2 =
      [Event.sendMsg (transformText cfgPlain msgReplyW.id msgReplyW.text) false
        (lookupMap stMapped.message_map 5) .plain] := by
  have h := C4_reply_resolution cfgPlain msgReplyW stMapped 5 60 [] rfl rfl
    (by decide) (by intro g hg; simp [msgReplyW] at hg) rfl
  exact ⟨rfl, h.1, h.2.1, h.2.2.2.2.2⟩

/-- Claim C5: in a run over n ≥ 2 messages sharing one album id, in any
order, only the first message produces any events at all (and it attempts at
least one send); each of the other n−1 messages is terminally skipped,
incrementing the skipped counter once each with no send attempted. -/
theorem C5_album_collapse (cfg : Config) (a : Nat) (m : Msg) (ms : List Msg)
    (st : CState) (env : List CallOutcome)
    (hall : ∀ x ∈ m :: ms, x.grouped_id = some a)
    (hnd : (m :: ms).Pairwise (fun x y => x.id ≠ y.id))
    (hids : ∀ x ∈ m :: ms, x.id ∉ st.processed_messages_ids)
    (hseen : a ∉ st.seen_album_ids) :
    (runMessages cfg (m :: ms) st env).2.2 = (process_message cfg m st env).2.2.2 ∧
    1 ≤ countSends (process_message cfg m st env).2.2.2 ∧
    (runMessages cfg (m :: ms) st env).1.stats.skipped = st.stats.skipped + ms.length := by
  have hfirst := process_message_album_first cfg m st env a
    (hids m (List.mem_cons_self ..)) (hall m (List.mem_cons_self ..)) hseen
  have hproc : (process_message cfg m st env).2.1.processed_messages_ids =
      m.id :: st.processed_messages_ids := by
    rw [process_message_processed, if_neg (hids m (List.mem_cons_self ..))]
  have hrest := runMessages_album_rest cfg a ms (process_message cfg m st env).2.1
    (process_message cfg m st env).2.2.1
    (fun x hx => hall x (List.mem_cons_of_mem _ hx))
    (by rw [hfirst.1]; exact List.mem_cons_self ..)
    (by
      intro x hx
      rw [hproc]
      simp only [List.mem_cons]
      rintro (hxm | hxmem)
      · exact (List.rel_of_pairwise_cons hnd hx) hxm.symm
      · exact hids x (List.mem_cons_of_mem _ hx) hxmem)
    (List.Pairwise.of_cons hnd)
  refine ⟨?_, hfirst.2.2, ?_⟩
  · simp only [runMessages]
    rw [hrest.2.1]
    simp
  · simp only [runMessages]
    rw [hrest.1, hfirst.2.1]

/-- Witness for C5: three concrete messages sharing album id 5; one send
attempt, two skips. -/
theorem C5_album_collapse_witness :
    ((5 : Nat) ∉ initState.seen_album_ids) ∧
    1 ≤ countSends (process_message cfgPlain msgAlbumA initState envAlbum).2.2.2 ∧
    (runMessages cfgPlain [msgAlbumA, msgAlbumB, msgAlbumC] initState envAlbum).1.stats.skipped =
      initState.stats.skipped + 2 := by
  have h := C5_album_collapse cfgPlain 5 msgAlbumA [msgAlbumB, msgAlbumC] initState envAlbum
    (by decide) (by decide) (by decide) (by decide)
  exact ⟨by decide, h.2.1, h.2.2⟩

/-- Claim C6: dispatch is idempotent per source id — after any dispatch of a
message, dispatching the same message again is a no-op: it returns `None`,
changes no state, consumes no outcomes, and emits no events (in particular,
no send). -/
theorem C6_dispatch_idempotent (cfg : Config) (m : Msg) (st : CState)
    (env : List CallOutcome) :
    m.id ∈ (process_message cfg m st env).2.1.processed_messages_ids ∧
    process_message cfg m
        (process_message cfg m st env).2.1 (process_message cfg m st env).2.2.1 =
      (none, (process_message cfg m st env).2.1, (process_message cfg m st env).2.2.1, []) :=
  ⟨process_message_mem cfg m st env,
    process_message_guard cfg m _ _ (process_message_mem cfg m st env)⟩

/-- Claim C7 counterexample: a document message with an empty attribute list
is cloned, yet no content-kind counter is incremented — in particular the
generic-file counter stays 0, contradicting the claim that an empty
attribute list is classified as generic file with exactly one counter
incremented. -/
theorem C7_empty_attrs_counterexample :
    (process_message cfgPlain msgEmptyAttrsDoc initState [.ok 7, .ok 9]).2.1.stats.cloned = 1 ∧
    (process_message cfgPlain msgEmptyAttrsDoc initState [.ok 7, .ok 9]).2.1.stats.files = 0 ∧
    (process_message cfgPlain msgEmptyAttrsDoc initState [.ok 7, .ok 9]).2.1.stats.videos = 0 ∧
    (process_message cfgPlain msgEmptyAttrsDoc initState [.ok 7, .ok 9]).2.1.stats.voices = 0 ∧
    (process_message cfgPlain msgEmptyAttrsDoc initState [.ok 7, .ok 9]).2.1.stats.music = 0 ∧
    (process_message cfgPlain msgEmptyAttrsDoc initState [.ok 7, .ok 9]).2.1.stats.stickers = 0 ∧
    (process_message cfgPlain msgEmptyAttrsDoc initState [.ok 7, .ok 9]).2.1.stats.gifs = 0 := by
  decide

/-- Claim C7 (amended): for a non-empty attribute list the classifier takes
the first matching attribute kind (video → video; voiced audio → voice;
unvoiced audio → music; sticker → sticker; animated → gif), falling through
to the generic-file counter when nothing matches, and increments exactly one
content-kind counter; for an empty attribute list the classification is
skipped and no content-kind counter changes. -/
theorem C7_classifier_amended (attrs : List DocAttr) (s : Stats) :
    classifyDocument attrs s =
      (match specDocKind attrs with
        | none => s
        | some k => bumpKind k s) ∧
    sixKindTotal (classifyDocument attrs s) =
      sixKindTotal s + (if attrs.isEmpty then 0 else 1) := by
  constructor
  · unfold classifyDocument specDocKind
    by_cases h : attrs.isEmpty <;> simp [h, classifyLoop_eq_bump]
  · unfold classifyDocument
    by_cases h : attrs.isEmpty <;> simp [h, classifyLoop_eq_bump, bumpKind_six]

/-- Claim C8: the transform applies literal replacements first and URL
stripping (with whitespace collapse and trim) second; on the spec's example
the output is exactly "Visit now: NEW", and on a replacement that introduces
a URL the introduced URL is stripped, pinning the order. -/
theorem C8_text_transform :
    transformText cfgTransformA 1 "Visit https://x.co now: OLD" = "Visit now: NEW" ∧
    transformText cfgTransformB 1 "A OLD" = "A" := by
  decide

/-- Claim C9: across any run from the initial state, the id mapping is
append-only (every entry of any prefix of the run survives to the end), its
keys are pairwise distinct, every key was processed, and the number of
entries equals the cloned counter — so entries are created exactly by
successful clones and an absent id is one that was never processed or never
successfully cloned. -/
theorem C9_map_append_only (cfg : Config) (env : List CallOutcome)
    (pre suf : List Msg) :
    (∀ k v, lookupMap ((runMessages cfg pre initState env).1).message_map k = some v →
      lookupMap ((runMessages cfg (pre ++ suf) initState env).1).message_map k = some v) ∧
    (mapKeys (runMessages cfg (pre ++ suf) initState env).1).Nodup ∧
    (mapKeys (runMessages cfg (pre ++ suf) initState env).1).length =
      ((runMessages cfg (pre ++ suf) initState env).1).stats.cloned ∧
    (∀ k, k ∈ mapKeys (runMessages cfg (pre ++ suf) initState env).1 →
      k ∈ ((runMessages cfg (pre ++ suf) initState env).1).processed_messages_ids) := by
  have hpre := runMessages_wf cfg pre initState env wf_initState
  have happ := runMessages_append cfg pre suf initState env
  have hsuf := runMessages_wf cfg suf (runMessages cfg pre initState env).1
    (runMessages cfg pre initState env).2.1 hpre.1
  refine ⟨?_, ?_, ?_, ?_⟩
  · intro k v hv
    rw [happ.1]
    exact hsuf.2 _ _ hv
  · rw [happ.1]
    exact hsuf.1.2.1
  · rw [happ.1]
    exact hsuf.1.2.2
  · rw [happ.1]
    exact fun k hk => hsuf.1.1 k hk

/-- Claim C10: no operation of the engine ever increments the albums
counter: after any run over any messages and outcomes, the final report's
album count is 0. -/
theorem C10_albums_never_incremented (cfg : Config) (msgs : List Msg)
    (env : List CallOutcome) :
    ((runMessages cfg msgs initState env).1).stats.albums = 0 := by
  rw [runMessages_albums]
  rfl

end TgCloner
